import Mathlib

/-!
# VA/Wayland renderer (`ffvarenderer_wayland.c`)

A shallow embedding of the Wayland renderer backend.  The renderer object is a
record of handles, a handle is a natural number and `0` is the C `NULL`.  Every
call into the Wayland client library is appended to a trace, and the value a
library call returns is supplied by the caller of the embedded function (the
library is not part of the program).  Resource counts are computed from the
trace.  Calls to `av_log` are not recorded.
-/

namespace FFVA

/-- Pointer-valued handle; `0` is `NULL`. -/
abbrev Handle := Nat

/-- Interface descriptors passed to `wl_registry_bind`. -/
inductive WlInterface where
  | wl_compositor_interface
  | wl_shell_interface
deriving DecidableEq

/-- One call into the Wayland client library, with its arguments and, for the
constructors, the handle it returned.  The two last calls exist in the library
and are listed so that their absence from a trace can be stated. -/
inductive WlCall where
  | wl_compositor_create_surface (compositor result : Handle)
  | wl_shell_get_shell_surface (shell surface result : Handle)
  | wl_shell_surface_set_toplevel (shell_surface : Handle)
  | wl_egl_window_create (surface : Handle) (width height : Int) (result : Handle)
  | wl_registry_bind (registry : Handle) (id : Nat) (iface : WlInterface)
      (version : Nat) (result : Handle)
  | wl_display_get_registry (display result : Handle)
  | wl_registry_add_listener (registry : Handle)
  | wl_display_roundtrip (display : Handle)
  | wl_shell_surface_destroy (shell_surface : Handle)
  | wl_surface_destroy (surface : Handle)
  | wl_compositor_destroy (compositor : Handle)
  | wl_registry_destroy (registry : Handle)
  | wl_egl_window_destroy (window : Handle)
  | wl_shell_destroy (shell : Handle)
deriving DecidableEq

/-- The calls made on the connection so far, oldest first. -/
abbrev Trace := List WlCall

/-- The display object of `ffvadisplay_priv.h`, reduced to what the renderer
reads: the type `ffva_display_get_type` reports and `native_display`. -/
structure FFVADisplay where
  type : Nat
  native_display : Handle
deriving DecidableEq

/-- The base renderer object, reduced to the fields this backend touches. -/
structure FFVARenderer where
  display : FFVADisplay
  window : Handle
deriving DecidableEq

/-- Rendering state, `struct ffva_renderer_wayland_s`. -/
structure FFVARendererWAYLAND where
  base : FFVARenderer
  display : Handle
  registry : Handle
  compositor : Handle
  shell : Handle
  surface : Handle
  shell_surface : Handle
  window : Handle
  buffer : Handle
  display_width : Nat
  display_height : Nat
deriving DecidableEq

/-- Modelled from the spec: the renderer object as the dispatcher hands it to
`renderer_init`.  Its allocation (`ffva_renderer_new`) is not part of the
sources; the spec gives the size as (0,0) and every handle as absent before the
first successful creation. -/
def renderer_alloc (display : FFVADisplay) : FFVARendererWAYLAND :=
  { base := { display := display, window := 0 },
    display := 0, registry := 0, compositor := 0, shell := 0, surface := 0,
    shell_surface := 0, window := 0, buffer := 0,
    display_width := 0, display_height := 0 }

/-- Conversion of a `uint32_t` argument to the `int` parameter of
`wl_egl_window_create`. -/
def toInt32 (n : Nat) : Int :=
  if n % 4294967296 < 2147483648 then ((n % 4294967296 : Nat) : Int)
  else ((n % 4294967296 : Nat) : Int) - 4294967296

/-- What the library returns to the three constructor calls of one
`create_window`. -/
structure WindowEnv where
  surface : Handle
  shell_surface : Handle
  window : Handle
deriving DecidableEq

/-- Outcome of an operation: its return value, the renderer and the trace. -/
structure Outcome where
  ret : Bool
  rnd : FFVARendererWAYLAND
  trace : Trace
deriving DecidableEq

/-- Embedding of `create_window`. -/
def create_window (rnd : FFVARendererWAYLAND) (width height : Nat)
    (env : WindowEnv) (tr : Trace) : Outcome :=
  -- rnd->surface = wl_compositor_create_surface(rnd->compositor);
  let tr1 := tr ++ [WlCall.wl_compositor_create_surface rnd.compositor env.surface]
  let rnd1 := { rnd with surface := env.surface }
  if rnd1.surface = 0 then
    { ret := false, rnd := rnd1, trace := tr1 }
  else
    -- rnd->shell_surface = wl_shell_get_shell_surface(rnd->shell, rnd->surface);
    let tr2 := tr1 ++ [WlCall.wl_shell_get_shell_surface rnd1.shell rnd1.surface
      env.shell_surface]
    let rnd2 := { rnd1 with shell_surface := env.shell_surface }
    -- if (!rnd->surface)
    if rnd2.surface = 0 then
      { ret := false, rnd := rnd2, trace := tr2 }
    else
      let tr3 := tr2 ++ [WlCall.wl_shell_surface_set_toplevel rnd2.shell_surface]
      let tr4 := tr3 ++ [WlCall.wl_egl_window_create rnd2.surface (toInt32 width)
        (toInt32 height) env.window]
      let rnd3 := { rnd2 with window := env.window }
      let rnd4 := { rnd3 with display_width := width, display_height := height }
      let rnd5 := { rnd4 with base := { rnd4.base with window := rnd4.window } }
      { ret := true, rnd := rnd5, trace := tr4 }

/-- One global advertised by the registry, together with the handle
`wl_registry_bind` returns if the listener binds it. -/
structure Advert where
  id : Nat
  interface : String
  version : Nat
  bound : Handle
deriving DecidableEq

/-- Embedding of `registry_handle_global`; `bound` is what `wl_registry_bind`
returns when it is called. -/
def registry_handle_global (rnd : FFVARendererWAYLAND) (registry : Handle)
    (id : Nat) (interface : String) (_version : Nat) (bound : Handle)
    (tr : Trace) : FFVARendererWAYLAND × Trace :=
  if interface = "wl_compositor" then
    ({ rnd with compositor := bound },
      tr ++ [WlCall.wl_registry_bind registry id WlInterface.wl_compositor_interface 1 bound])
  else if interface = "wl_shell" then
    ({ rnd with shell := bound },
      tr ++ [WlCall.wl_registry_bind registry id WlInterface.wl_shell_interface 1 bound])
  else
    (rnd, tr)

/-- Embedding of `registry_handle_global_remove`: empty body. -/
def registry_handle_global_remove (rnd : FFVARendererWAYLAND) (_registry : Handle)
    (_name : Nat) (tr : Trace) : FFVARendererWAYLAND × Trace :=
  (rnd, tr)

/-- The listener invocations made while `wl_display_roundtrip` dispatches the
advertisements, in order of delivery. -/
def dispatch_globals (registry : Handle) :
    List Advert → FFVARendererWAYLAND → Trace → FFVARendererWAYLAND × Trace
  | [], rnd, tr => (rnd, tr)
  | a :: rest, rnd, tr =>
    let s := registry_handle_global rnd registry a.id a.interface a.version a.bound tr
    dispatch_globals registry rest s.1 s.2

/-- What the connection answers during one `renderer_init`: the registry
handle and the globals advertised during the round-trip. -/
structure InitEnv where
  registry : Handle
  globals : List Advert
deriving DecidableEq

/-- Embedding of `renderer_init`.  The value of the enumerator
`FFVA_DISPLAY_TYPE_WAYLAND` (declared outside the sources) is a parameter. -/
def renderer_init (FFVA_DISPLAY_TYPE_WAYLAND : Nat) (rnd : FFVARendererWAYLAND)
    (_flags : Nat) (env : InitEnv) (tr : Trace) : Outcome :=
  let display := rnd.base.display
  if display.type ≠ FFVA_DISPLAY_TYPE_WAYLAND then
    { ret := false, rnd := rnd, trace := tr }
  else
    let rnd1 := { rnd with display := display.native_display }
    let tr1 := tr ++ [WlCall.wl_display_get_registry rnd1.display env.registry]
    let rnd2 := { rnd1 with registry := env.registry }
    let tr2 := tr1 ++ [WlCall.wl_registry_add_listener rnd2.registry]
    let tr3 := tr2 ++ [WlCall.wl_display_roundtrip rnd2.display]
    let s := dispatch_globals rnd2.registry env.globals rnd2 tr3
    { ret := true, rnd := s.1, trace := s.2 }

/-- Embedding of `renderer_finalize`. -/
def renderer_finalize (rnd : FFVARendererWAYLAND) (tr : Trace) :
    FFVARendererWAYLAND × Trace :=
  (rnd, tr ++ [WlCall.wl_shell_surface_destroy rnd.shell_surface,
               WlCall.wl_surface_destroy rnd.surface,
               WlCall.wl_compositor_destroy rnd.compositor,
               WlCall.wl_registry_destroy rnd.registry])

/-- Embedding of `renderer_get_size`.  An out-pointer is `none` when it is
`NULL` and otherwise holds the value it points to; the result gives the return
value and the values pointed to afterwards. -/
def renderer_get_size (rnd : FFVARendererWAYLAND) (width_ptr height_ptr : Option Nat) :
    Bool × Option Nat × Option Nat :=
  let w := match width_ptr with
    | some _ => some rnd.display_width
    | none => none
  let h := match height_ptr with
    | some _ => some rnd.display_height
    | none => none
  (true, w, h)

/-- Embedding of `renderer_set_size`. -/
def renderer_set_size (rnd : FFVARendererWAYLAND) (width height : Nat)
    (env : WindowEnv) (tr : Trace) : Outcome :=
  create_window rnd width height env tr

/-- Rectangle of libva (`VARectangle`). -/
structure VARectangle where
  x : Int
  y : Int
  width : Nat
  height : Nat
deriving DecidableEq

/-- Embedding of `renderer_put_surface`: the body is commented out in the
source and only `return true` remains. -/
def renderer_put_surface (rnd : FFVARendererWAYLAND) (_surface : Handle)
    (_src_rect _dst_rect : Option VARectangle) (_flags : Nat) (tr : Trace) : Outcome :=
  { ret := true, rnd := rnd, trace := tr }

/-! ## Resource accounting over a trace -/

/-- Effect of one call on the list of live drawing surfaces. -/
def stepSurfaces (live : List Handle) : WlCall → List Handle
  | WlCall.wl_compositor_create_surface _ r => if r = 0 then live else r :: live
  | WlCall.wl_surface_destroy h => live.erase h
  | _ => live

/-- Drawing surfaces created and not destroyed. -/
def liveSurfaces (tr : Trace) : List Handle := tr.foldl stepSurfaces []

/-- Effect of one call on the list of live shell surfaces. -/
def stepShellSurfaces (live : List Handle) : WlCall → List Handle
  | WlCall.wl_shell_get_shell_surface _ _ r => if r = 0 then live else r :: live
  | WlCall.wl_shell_surface_destroy h => live.erase h
  | _ => live

/-- Shell surfaces created and not destroyed. -/
def liveShellSurfaces (tr : Trace) : List Handle := tr.foldl stepShellSurfaces []

/-- Effect of one call on the list of live backing windows. -/
def stepWindows (live : List Handle) : WlCall → List Handle
  | WlCall.wl_egl_window_create _ _ _ r => if r = 0 then live else r :: live
  | WlCall.wl_egl_window_destroy h => live.erase h
  | _ => live

/-- Backing windows created and not destroyed. -/
def liveWindows (tr : Trace) : List Handle := tr.foldl stepWindows []

/-- Whether a call is one of the library's destroy requests. -/
def isDestroy : WlCall → Bool
  | WlCall.wl_shell_surface_destroy _ => true
  | WlCall.wl_surface_destroy _ => true
  | WlCall.wl_compositor_destroy _ => true
  | WlCall.wl_registry_destroy _ => true
  | WlCall.wl_egl_window_destroy _ => true
  | WlCall.wl_shell_destroy _ => true
  | _ => false

/-- Whether a call is a `wl_registry_bind`. -/
def isBind : WlCall → Bool
  | WlCall.wl_registry_bind _ _ _ _ _ => true
  | _ => false

/-- One `renderer_set_size` request: the size asked for and what the library
returns during it. -/
structure SizeCall where
  width : Nat
  height : Nat
  env : WindowEnv
deriving DecidableEq

/-- A sequence of `renderer_set_size` calls, each applied to the state the
previous one left; the return values are collected oldest first. -/
def set_size_seq : List SizeCall → FFVARendererWAYLAND → Trace →
    List Bool × FFVARendererWAYLAND × Trace
  | [], rnd, tr => ([], rnd, tr)
  | c :: rest, rnd, tr =>
    let o := renderer_set_size rnd c.width c.height c.env tr
    let r := set_size_seq rest o.rnd o.trace
    (o.ret :: r.1, r.2.1, r.2.2)

/-- Number of `wl_registry_bind` calls in a list of calls that name the given
interface descriptor. -/
def bindCount (iface : WlInterface) (evs : List WlCall) : Nat :=
  evs.countP (fun c => match c with
    | WlCall.wl_registry_bind _ _ i _ _ => decide (i = iface)
    | _ => false)

/-- The handle a destroy request is applied to, `none` for any other call. -/
def destroyTarget : WlCall → Option Handle
  | WlCall.wl_shell_surface_destroy h => some h
  | WlCall.wl_surface_destroy h => some h
  | WlCall.wl_compositor_destroy h => some h
  | WlCall.wl_registry_destroy h => some h
  | WlCall.wl_egl_window_destroy h => some h
  | WlCall.wl_shell_destroy h => some h
  | _ => none

/-- Whether an advertisement names one of the two interfaces the listener
recognises. -/
def isRecognised (a : Advert) : Bool :=
  decide (a.interface = "wl_compositor") || decide (a.interface = "wl_shell")

/-! ## Concrete scenarios -/

/-- A display of the Wayland type, with the enumerator valued 3. -/
def demoDisplay : FFVADisplay := { type := 3, native_display := 100 }

/-- A display of another type. -/
def otherDisplay : FFVADisplay := { type := 1, native_display := 100 }

/-- Advertisements with both required globals and an unrelated one. -/
def demoGlobals : List Advert :=
  [⟨1, "wl_compositor", 3, 5⟩, ⟨2, "wl_seat", 4, 9⟩, ⟨3, "wl_shell", 1, 6⟩]

/-- Advertisements in which `wl_compositor` appears twice. -/
def twiceGlobals : List Advert :=
  [⟨1, "wl_compositor", 3, 5⟩, ⟨3, "wl_shell", 1, 6⟩, ⟨4, "wl_compositor", 3, 7⟩]

/-- Advertisements without `wl_shell`. -/
def noShellGlobals : List Advert :=
  [⟨1, "wl_compositor", 3, 5⟩, ⟨2, "wl_seat", 4, 9⟩]

/-- The state after a successful `renderer_init` on `demoDisplay`. -/
def boundState : Outcome :=
  renderer_init 3 (renderer_alloc demoDisplay) 0 ⟨50, demoGlobals⟩ []

/-- The state after `renderer_init` and one `renderer_set_size (1280, 720)`. -/
def sizedState : Outcome :=
  renderer_set_size boundState.rnd 1280 720 ⟨10, 11, 12⟩ boundState.trace

/-- Two size requests, both answered with fresh handles. -/
def twoSizes : List SizeCall :=
  [⟨1280, 720, ⟨10, 11, 12⟩⟩, ⟨640, 480, ⟨20, 21, 22⟩⟩]

/-- Advertisements without `wl_compositor`. -/
def noCompositorGlobals : List Advert :=
  [⟨2, "wl_seat", 4, 9⟩, ⟨3, "wl_shell", 1, 6⟩]

/-- The state after `renderer_init` when `wl_compositor` is not advertised. -/
def noCompositorState : Outcome :=
  renderer_init 3 (renderer_alloc demoDisplay) 0 ⟨50, noCompositorGlobals⟩ []

/-- The state after `renderer_init` when `wl_shell` is not advertised. -/
def noShellState : Outcome :=
  renderer_init 3 (renderer_alloc demoDisplay) 0 ⟨50, noShellGlobals⟩ []

/-! ## Lemmas on `create_window` and the resource counts -/

theorem liveSurfaces_append (tr evs : Trace) :
    liveSurfaces (tr ++ evs) = evs.foldl stepSurfaces (liveSurfaces tr) := by
  simp [liveSurfaces, List.foldl_append]

theorem create_window_null (rnd : FFVARendererWAYLAND) (width height : Nat)
    (env : WindowEnv) (tr : Trace) (h : env.surface = 0) :
    create_window rnd width height env tr =
      { ret := false, rnd := { rnd with surface := 0 },
        trace := tr ++ [WlCall.wl_compositor_create_surface rnd.compositor 0] } := by
  simp [create_window, h]

theorem create_window_nonnull (rnd : FFVARendererWAYLAND) (width height : Nat)
    (env : WindowEnv) (tr : Trace) (h : env.surface ≠ 0) :
    create_window rnd width height env tr =
      { ret := true,
        rnd := { rnd with
          base := { rnd.base with window := env.window },
          surface := env.surface, shell_surface := env.shell_surface,
          window := env.window, display_width := width, display_height := height },
        trace := tr ++ [WlCall.wl_compositor_create_surface rnd.compositor env.surface,
          WlCall.wl_shell_get_shell_surface rnd.shell env.surface env.shell_surface,
          WlCall.wl_shell_surface_set_toplevel env.shell_surface,
          WlCall.wl_egl_window_create env.surface (toInt32 width) (toInt32 height)
            env.window] } := by
  simp [create_window, h]

theorem create_window_ret (rnd : FFVARendererWAYLAND) (width height : Nat)
    (env : WindowEnv) (tr : Trace) :
    (create_window rnd width height env tr).ret = decide (env.surface ≠ 0) := by
  by_cases h : env.surface = 0
  · simp [create_window_null, h]
  · simp [create_window_nonnull, h]

theorem create_window_trace (rnd : FFVARendererWAYLAND) (width height : Nat)
    (env : WindowEnv) (tr : Trace) :
    ∃ evs, (create_window rnd width height env tr).trace = tr ++ evs ∧
      (∀ c ∈ evs, isDestroy c = false) ∧
      (evs.foldl stepSurfaces (liveSurfaces tr)).length =
        (liveSurfaces tr).length + (if env.surface = 0 then 0 else 1) := by
  by_cases h : env.surface = 0
  · refine ⟨[WlCall.wl_compositor_create_surface rnd.compositor 0], ?_, ?_, ?_⟩
    · rw [create_window_null _ _ _ _ _ h]
    · simp [isDestroy]
    · simp [h, stepSurfaces]
  · refine ⟨[WlCall.wl_compositor_create_surface rnd.compositor env.surface,
      WlCall.wl_shell_get_shell_surface rnd.shell env.surface env.shell_surface,
      WlCall.wl_shell_surface_set_toplevel env.shell_surface,
      WlCall.wl_egl_window_create env.surface (toInt32 width) (toInt32 height)
        env.window], ?_, ?_, ?_⟩
    · rw [create_window_nonnull _ _ _ _ _ h]
    · simp [isDestroy]
    · simp [h, stepSurfaces]

theorem liveShellSurfaces_append (tr evs : Trace) :
    liveShellSurfaces (tr ++ evs) = evs.foldl stepShellSurfaces (liveShellSurfaces tr) := by
  simp [liveShellSurfaces, List.foldl_append]

theorem liveWindows_append (tr evs : Trace) :
    liveWindows (tr ++ evs) = evs.foldl stepWindows (liveWindows tr) := by
  simp [liveWindows, List.foldl_append]

theorem create_window_live (rnd : FFVARendererWAYLAND) (width height : Nat)
    (env : WindowEnv) (tr : Trace)
    (hs : env.surface ≠ 0) (hss : env.shell_surface ≠ 0) (hw : env.window ≠ 0) :
    liveSurfaces (create_window rnd width height env tr).trace =
      env.surface :: liveSurfaces tr ∧
    liveShellSurfaces (create_window rnd width height env tr).trace =
      env.shell_surface :: liveShellSurfaces tr ∧
    liveWindows (create_window rnd width height env tr).trace =
      env.window :: liveWindows tr := by
  rw [create_window_nonnull _ _ _ _ _ hs]
  simp [liveSurfaces_append, liveShellSurfaces_append, liveWindows_append, stepSurfaces,
    stepShellSurfaces, stepWindows, hs, hss, hw]

theorem set_size_seq_trace (calls : List SizeCall) (rnd : FFVARendererWAYLAND)
    (tr : Trace) :
    ∃ evs, (set_size_seq calls rnd tr).2.2 = tr ++ evs ∧
      (∀ c ∈ evs, isDestroy c = false) ∧
      (liveSurfaces (set_size_seq calls rnd tr).2.2).length =
        (liveSurfaces tr).length + calls.countP (fun c => decide (c.env.surface ≠ 0)) := by
  induction calls generalizing rnd tr with
  | nil => exact ⟨[], by simp [set_size_seq]⟩
  | cons c rest ih =>
    obtain ⟨evs1, h1, hd1, hl1⟩ := create_window_trace rnd c.width c.height c.env tr
    obtain ⟨evs2, h2, hd2, hl2⟩ := ih (create_window rnd c.width c.height c.env tr).rnd
      (create_window rnd c.width c.height c.env tr).trace
    refine ⟨evs1 ++ evs2, ?_, ?_, ?_⟩
    · simp only [set_size_seq, renderer_set_size]
      rw [h2, h1, List.append_assoc]
    · intro x hx
      rcases List.mem_append.mp hx with hx | hx
      · exact hd1 x hx
      · exact hd2 x hx
    · simp only [set_size_seq, renderer_set_size]
      rw [hl2, h1, liveSurfaces_append, hl1, List.countP_cons]
      by_cases hs : c.env.surface = 0
      · simp [hs]
      · simp [hs]
        omega

theorem set_size_seq_live (calls : List SizeCall) (rnd : FFVARendererWAYLAND) (tr : Trace)
    (hall : ∀ c ∈ calls,
      c.env.surface ≠ 0 ∧ c.env.shell_surface ≠ 0 ∧ c.env.window ≠ 0) :
    liveSurfaces (set_size_seq calls rnd tr).2.2 =
      (calls.map (fun c => c.env.surface)).reverse ++ liveSurfaces tr ∧
    liveShellSurfaces (set_size_seq calls rnd tr).2.2 =
      (calls.map (fun c => c.env.shell_surface)).reverse ++ liveShellSurfaces tr ∧
    liveWindows (set_size_seq calls rnd tr).2.2 =
      (calls.map (fun c => c.env.window)).reverse ++ liveWindows tr := by
  induction calls generalizing rnd tr with
  | nil => simp [set_size_seq]
  | cons c rest ih =>
    obtain ⟨hs, hss, hw⟩ := hall c (List.mem_cons_self _ _)
    obtain ⟨l1, l2, l3⟩ := create_window_live rnd c.width c.height c.env tr hs hss hw
    obtain ⟨i1, i2, i3⟩ := ih (create_window rnd c.width c.height c.env tr).rnd
      (create_window rnd c.width c.height c.env tr).trace
      (fun x hx => hall x (List.mem_cons_of_mem _ hx))
    simp only [set_size_seq, renderer_set_size]
    rw [i1, i2, i3, l1, l2, l3]
    simp

theorem set_size_seq_fields (calls : List SizeCall) (rnd : FFVARendererWAYLAND) (tr : Trace)
    (hne : calls ≠ []) (hs : (calls.getLast hne).env.surface ≠ 0) :
    (set_size_seq calls rnd tr).2.1.surface = (calls.getLast hne).env.surface ∧
    (set_size_seq calls rnd tr).2.1.shell_surface = (calls.getLast hne).env.shell_surface ∧
    (set_size_seq calls rnd tr).2.1.window = (calls.getLast hne).env.window ∧
    (set_size_seq calls rnd tr).2.1.base.window = (calls.getLast hne).env.window := by
  induction calls generalizing rnd tr with
  | nil => exact absurd rfl hne
  | cons c rest ih =>
    by_cases hr : rest = []
    · subst hr
      have hc : c.env.surface ≠ 0 := by simpa using hs
      simp [set_size_seq, renderer_set_size, create_window_nonnull _ _ _ _ _ hc]
    · have hl : (rest.getLast hr).env.surface ≠ 0 := by
        rw [List.getLast_cons hr] at hs
        exact hs
      have h := ih (renderer_set_size rnd c.width c.height c.env tr).rnd
        (renderer_set_size rnd c.width c.height c.env tr).trace hr hl
      rw [List.getLast_cons hr]
      simpa [set_size_seq] using h

/-! ## Lemmas on global discovery -/

theorem registry_handle_global_compositor (rnd : FFVARendererWAYLAND) (registry : Handle)
    (id : Nat) (interface : String) (version : Nat) (bound : Handle) (tr : Trace) :
    (registry_handle_global rnd registry id interface version bound tr).1.compositor =
      if interface = "wl_compositor" then bound else rnd.compositor := by
  unfold registry_handle_global
  split_ifs <;> rfl

theorem registry_handle_global_shell (rnd : FFVARendererWAYLAND) (registry : Handle)
    (id : Nat) (interface : String) (version : Nat) (bound : Handle) (tr : Trace) :
    (registry_handle_global rnd registry id interface version bound tr).1.shell =
      if interface = "wl_shell" then bound else rnd.shell := by
  unfold registry_handle_global
  by_cases h1 : interface = "wl_compositor"
  · have h2 : interface ≠ "wl_shell" := by rw [h1]; decide
    simp [h1]
  · by_cases h2 : interface = "wl_shell" <;> simp [h1, h2]

theorem dispatch_globals_compositor (registry : Handle) (ads : List Advert)
    (rnd : FFVARendererWAYLAND) (tr : Trace) :
    (dispatch_globals registry ads rnd tr).1.compositor =
      (((ads.filter (fun a => decide (a.interface = "wl_compositor"))).getLast?).map
        Advert.bound).getD rnd.compositor := by
  induction ads generalizing rnd tr with
  | nil => simp [dispatch_globals]
  | cons a rest ih =>
    simp only [dispatch_globals]
    rw [ih, registry_handle_global_compositor]
    by_cases h : a.interface = "wl_compositor"
    · simp only [h, if_true, decide_True, List.filter_cons_of_pos, List.getLast?_cons]
      cases (List.filter (fun a => decide (a.interface = "wl_compositor")) rest).getLast? <;>
        simp
    · simp [h, List.filter_cons]

theorem dispatch_globals_shell (registry : Handle) (ads : List Advert)
    (rnd : FFVARendererWAYLAND) (tr : Trace) :
    (dispatch_globals registry ads rnd tr).1.shell =
      (((ads.filter (fun a => decide (a.interface = "wl_shell"))).getLast?).map
        Advert.bound).getD rnd.shell := by
  induction ads generalizing rnd tr with
  | nil => simp [dispatch_globals]
  | cons a rest ih =>
    simp only [dispatch_globals]
    rw [ih, registry_handle_global_shell]
    by_cases h : a.interface = "wl_shell"
    · simp only [h, if_true, decide_True, List.filter_cons_of_pos, List.getLast?_cons]
      cases (List.filter (fun a => decide (a.interface = "wl_shell")) rest).getLast? <;>
        simp
    · simp [h, List.filter_cons]

theorem dispatch_globals_trace (registry : Handle) (ads : List Advert)
    (rnd : FFVARendererWAYLAND) (tr : Trace) :
    ∃ evs, (dispatch_globals registry ads rnd tr).2 = tr ++ evs ∧
      (∀ c ∈ evs, isBind c = true) ∧
      bindCount WlInterface.wl_compositor_interface evs =
        ads.countP (fun a => decide (a.interface = "wl_compositor")) ∧
      bindCount WlInterface.wl_shell_interface evs =
        ads.countP (fun a => decide (a.interface = "wl_shell")) := by
  induction ads generalizing rnd tr with
  | nil => exact ⟨[], by simp [dispatch_globals, bindCount]⟩
  | cons a rest ih =>
    simp only [dispatch_globals]
    by_cases h1 : a.interface = "wl_compositor"
    · have h2 : a.interface ≠ "wl_shell" := by rw [h1]; decide
      obtain ⟨evs, he, hb, hc, hs⟩ := ih
        (registry_handle_global rnd registry a.id a.interface a.version a.bound tr).1
        (registry_handle_global rnd registry a.id a.interface a.version a.bound tr).2
      refine ⟨WlCall.wl_registry_bind registry a.id WlInterface.wl_compositor_interface 1
        a.bound :: evs, ?_, ?_, ?_, ?_⟩
      · rw [he]; simp [registry_handle_global, h1]
      · intro c hc2
        rcases List.mem_cons.mp hc2 with hc2 | hc2
        · subst hc2; rfl
        · exact hb c hc2
      · simp only [bindCount] at hc ⊢
        simp [List.countP_cons, hc, h1]
      · simp only [bindCount] at hs ⊢
        simp [List.countP_cons, hs, h2]
    · by_cases h2 : a.interface = "wl_shell"
      · obtain ⟨evs, he, hb, hc, hs⟩ := ih
          (registry_handle_global rnd registry a.id a.interface a.version a.bound tr).1
          (registry_handle_global rnd registry a.id a.interface a.version a.bound tr).2
        refine ⟨WlCall.wl_registry_bind registry a.id WlInterface.wl_shell_interface 1
          a.bound :: evs, ?_, ?_, ?_, ?_⟩
        · rw [he]; simp [registry_handle_global, h1, h2]
        · intro c hc2
          rcases List.mem_cons.mp hc2 with hc2 | hc2
          · subst hc2; rfl
          · exact hb c hc2
        · simp only [bindCount] at hc ⊢
          simp [List.countP_cons, hc, h1]
        · simp only [bindCount] at hs ⊢
          simp [List.countP_cons, hs, h2]
      · obtain ⟨evs, he, hb, hc, hs⟩ := ih
          (registry_handle_global rnd registry a.id a.interface a.version a.bound tr).1
          (registry_handle_global rnd registry a.id a.interface a.version a.bound tr).2
        refine ⟨evs, ?_, hb, ?_, ?_⟩
        · rw [he]; simp [registry_handle_global, h1, h2]
        · simp [List.countP_cons, hc, h1]
        · simp [List.countP_cons, hs, h2]

/-! ## Claims -/

/-- C1 as stated fails: with the compositor and shell bound, a drawing surface
obtained and `wl_shell_get_shell_surface` returning null, `create_window` does
not both return failure and leave the number of live drawing surfaces as it
was. -/
theorem C1_counterexample :
    ¬ ((create_window boundState.rnd 1280 720 ⟨10, 0, 12⟩ boundState.trace).ret = false ∧
       (liveSurfaces (create_window boundState.rnd 1280 720 ⟨10, 0, 12⟩
          boundState.trace).trace).length = (liveSurfaces boundState.trace).length) := by
  decide

/-- C1 amended: when `create_window` obtains a drawing surface and
`wl_shell_get_shell_surface` returns null, no destroy call is made, the new
surface stays in `rnd->surface`, and the number of live drawing surfaces is one
more than before the call. -/
theorem C1_shell_failure_keeps_surface (rnd : FFVARendererWAYLAND) (width height : Nat)
    (env : WindowEnv) (tr : Trace)
    (hsurf : env.surface ≠ 0) (hshell : env.shell_surface = 0) :
    (create_window rnd width height env tr).rnd.surface = env.surface ∧
    (create_window rnd width height env tr).rnd.shell_surface = 0 ∧
    (∃ evs, (create_window rnd width height env tr).trace = tr ++ evs ∧
      ∀ c ∈ evs, isDestroy c = false) ∧
    (liveSurfaces (create_window rnd width height env tr).trace).length =
      (liveSurfaces tr).length + 1 := by
  obtain ⟨evs, htr, hnd, hlen⟩ := create_window_trace rnd width height env tr
  refine ⟨?_, ?_, ⟨evs, htr, hnd⟩, ?_⟩
  · simp [create_window_nonnull _ _ _ _ _ hsurf]
  · simp [create_window_nonnull _ _ _ _ _ hsurf, hshell]
  · rw [htr, liveSurfaces_append, hlen]
    simp [hsurf]

theorem C1_shell_failure_keeps_surface_witness :
    (create_window boundState.rnd 1280 720 ⟨10, 0, 12⟩ boundState.trace).rnd.surface = 10 ∧
    (create_window boundState.rnd 1280 720 ⟨10, 0, 12⟩ boundState.trace).rnd.shell_surface = 0 ∧
    (∃ evs, (create_window boundState.rnd 1280 720 ⟨10, 0, 12⟩ boundState.trace).trace =
        boundState.trace ++ evs ∧ ∀ c ∈ evs, isDestroy c = false) ∧
    (liveSurfaces (create_window boundState.rnd 1280 720 ⟨10, 0, 12⟩
        boundState.trace).trace).length = (liveSurfaces boundState.trace).length + 1 :=
  C1_shell_failure_keeps_surface boundState.rnd 1280 720 ⟨10, 0, 12⟩ boundState.trace
    (by decide) rfl

/-- C2: after a non-empty sequence of `renderer_set_size` calls that all
succeed, `renderer_get_size` returns true and writes the width and height of
the last call through every non-null out-pointer. -/
theorem C2_get_size_reports_last (calls : List SizeCall) (rnd : FFVARendererWAYLAND)
    (tr : Trace) (hne : calls ≠ [])
    (hok : ∀ b ∈ (set_size_seq calls rnd tr).1, b = true)
    (width_ptr height_ptr : Option Nat) :
    renderer_get_size (set_size_seq calls rnd tr).2.1 width_ptr height_ptr =
      (true, width_ptr.map (fun _ => (calls.getLast hne).width),
        height_ptr.map (fun _ => (calls.getLast hne).height)) := by
  induction calls generalizing rnd tr with
  | nil => exact absurd rfl hne
  | cons c rest ih =>
    by_cases hr : rest = []
    · subst hr
      have hret : (create_window rnd c.width c.height c.env tr).ret = true := by
        apply hok
        simp [set_size_seq, renderer_set_size]
      rw [create_window_ret] at hret
      have hs : c.env.surface ≠ 0 := by simpa using hret
      cases width_ptr <;> cases height_ptr <;>
        simp [set_size_seq, renderer_set_size, create_window_nonnull _ _ _ _ _ hs,
          renderer_get_size]
    · have hrest : ∀ b ∈ (set_size_seq rest
          (renderer_set_size rnd c.width c.height c.env tr).rnd
          (renderer_set_size rnd c.width c.height c.env tr).trace).1, b = true := by
        intro b hb
        apply hok
        simp only [set_size_seq]
        exact List.mem_cons_of_mem _ hb
      have h := ih (renderer_set_size rnd c.width c.height c.env tr).rnd
        (renderer_set_size rnd c.width c.height c.env tr).trace hr hrest
      rw [List.getLast_cons hr]
      simpa [set_size_seq] using h

theorem C2_get_size_reports_last_witness :
    renderer_get_size (set_size_seq twoSizes boundState.rnd boundState.trace).2.1
        (some 0) (some 0) = (true, some 640, some 480) :=
  C2_get_size_reports_last twoSizes boundState.rnd boundState.trace (by decide)
    (by decide) (some 0) (some 0)

/-- C3 as stated fails: after a successful `renderer_init` and two successful
`renderer_set_size` calls, two drawing surfaces, two shell surfaces and two
backing windows are live, the first generation among them. -/
theorem C3_counterexample :
    ¬ ((liveSurfaces (set_size_seq twoSizes boundState.rnd boundState.trace).2.2).length ≤ 1) ∧
    ¬ ((liveShellSurfaces
        (set_size_seq twoSizes boundState.rnd boundState.trace).2.2).length ≤ 1) ∧
    ¬ ((liveWindows (set_size_seq twoSizes boundState.rnd boundState.trace).2.2).length ≤ 1) ∧
    10 ∈ liveSurfaces (set_size_seq twoSizes boundState.rnd boundState.trace).2.2 := by
  decide

/-- C3 amended: `renderer_set_size` makes no destroy call, so generations
accumulate.  For every sequence of `renderer_set_size` calls from any state:
no destroy call is made; the number of live drawing surfaces afterwards is the
number before plus the number of calls in which `wl_compositor_create_surface`
returned a surface; when the library returns a surface, a shell surface and a
window in every call, the live drawing surfaces, shell surfaces and windows
afterwards are all those live before together with every one the calls
created; and after a non-empty sequence whose last call obtained a surface and
a shell surface, the `surface`, `shell_surface`, `window` and `base.window`
handles of the renderer are those of the last call, the earlier handles being
overwritten and not destroyed. -/
theorem C3_set_size_never_destroys (calls : List SizeCall) (rnd : FFVARendererWAYLAND)
    (tr : Trace) :
    (∃ evs, (set_size_seq calls rnd tr).2.2 = tr ++ evs ∧
      ∀ c ∈ evs, isDestroy c = false) ∧
    (liveSurfaces (set_size_seq calls rnd tr).2.2).length =
      (liveSurfaces tr).length + calls.countP (fun c => decide (c.env.surface ≠ 0)) ∧
    ((∀ c ∈ calls, c.env.surface ≠ 0 ∧ c.env.shell_surface ≠ 0 ∧ c.env.window ≠ 0) →
      liveSurfaces (set_size_seq calls rnd tr).2.2 =
        (calls.map (fun c => c.env.surface)).reverse ++ liveSurfaces tr ∧
      liveShellSurfaces (set_size_seq calls rnd tr).2.2 =
        (calls.map (fun c => c.env.shell_surface)).reverse ++ liveShellSurfaces tr ∧
      liveWindows (set_size_seq calls rnd tr).2.2 =
        (calls.map (fun c => c.env.window)).reverse ++ liveWindows tr) ∧
    (∀ hne : calls ≠ [],
      (calls.getLast hne).env.surface ≠ 0 ∧ (calls.getLast hne).env.shell_surface ≠ 0 →
      (set_size_seq calls rnd tr).2.1.surface = (calls.getLast hne).env.surface ∧
      (set_size_seq calls rnd tr).2.1.shell_surface =
        (calls.getLast hne).env.shell_surface ∧
      (set_size_seq calls rnd tr).2.1.window = (calls.getLast hne).env.window ∧
      (set_size_seq calls rnd tr).2.1.base.window = (calls.getLast hne).env.window) := by
  obtain ⟨evs, he, hd, hl⟩ := set_size_seq_trace calls rnd tr
  refine ⟨⟨evs, he, hd⟩, hl, ?_, ?_⟩
  · intro hall
    exact set_size_seq_live calls rnd tr hall
  · intro hne hlast
    exact set_size_seq_fields calls rnd tr hne hlast.1

theorem C3_set_size_never_destroys_witness :
    liveSurfaces (set_size_seq twoSizes boundState.rnd boundState.trace).2.2 = [20, 10] ∧
    liveShellSurfaces (set_size_seq twoSizes boundState.rnd boundState.trace).2.2 = [21, 11] ∧
    liveWindows (set_size_seq twoSizes boundState.rnd boundState.trace).2.2 = [22, 12] ∧
    (set_size_seq twoSizes boundState.rnd boundState.trace).2.1.surface = 20 ∧
    (set_size_seq twoSizes boundState.rnd boundState.trace).2.1.shell_surface = 21 ∧
    (set_size_seq twoSizes boundState.rnd boundState.trace).2.1.window = 22 ∧
    (set_size_seq twoSizes boundState.rnd boundState.trace).2.1.base.window = 22 :=
  ⟨((C3_set_size_never_destroys twoSizes boundState.rnd boundState.trace).2.2.1
      (by decide)).1,
    ((C3_set_size_never_destroys twoSizes boundState.rnd boundState.trace).2.2.1
      (by decide)).2.1,
    ((C3_set_size_never_destroys twoSizes boundState.rnd boundState.trace).2.2.1
      (by decide)).2.2,
    (C3_set_size_never_destroys twoSizes boundState.rnd boundState.trace).2.2.2
      (by decide) (by decide)⟩

/-- C9 as stated fails: when a window from an earlier successful
`renderer_set_size` exists and `wl_compositor_create_surface` then fails, the
renderer is not what it was before the call (its surface handle is now null). -/
theorem C9_counterexample :
    ¬ ((create_window sizedState.rnd 640 480 ⟨0, 21, 22⟩ sizedState.trace).rnd =
        sizedState.rnd) ∧
    sizedState.rnd.surface = 10 ∧
    (create_window sizedState.rnd 640 480 ⟨0, 21, 22⟩ sizedState.trace).rnd.surface = 0 := by
  decide

/-- C9 amended: if `wl_compositor_create_surface` fails inside `create_window`,
then `create_window` and `renderer_set_size` return failure, the only call made
is that one, and the renderer is what it was before except that its `surface`
handle is now null; `shell_surface`, `window`, `base.window` and the recorded
width and height are unchanged. -/
theorem C9_surface_failure_frame (rnd : FFVARendererWAYLAND) (width height : Nat)
    (env : WindowEnv) (tr : Trace) (hfail : env.surface = 0) :
    (create_window rnd width height env tr).ret = false ∧
    (renderer_set_size rnd width height env tr).ret = false ∧
    (create_window rnd width height env tr).rnd = { rnd with surface := 0 } ∧
    (create_window rnd width height env tr).trace =
      tr ++ [WlCall.wl_compositor_create_surface rnd.compositor 0] := by
  simp [renderer_set_size, create_window_null _ _ _ _ _ hfail]

theorem C9_surface_failure_frame_witness :
    (create_window sizedState.rnd 640 480 ⟨0, 21, 22⟩ sizedState.trace).ret = false ∧
    (renderer_set_size sizedState.rnd 640 480 ⟨0, 21, 22⟩ sizedState.trace).ret = false ∧
    (create_window sizedState.rnd 640 480 ⟨0, 21, 22⟩ sizedState.trace).rnd =
      { sizedState.rnd with surface := 0 } ∧
    (create_window sizedState.rnd 640 480 ⟨0, 21, 22⟩ sizedState.trace).trace =
      sizedState.trace ++ [WlCall.wl_compositor_create_surface sizedState.rnd.compositor 0] :=
  C9_surface_failure_frame sizedState.rnd 640 480 ⟨0, 21, 22⟩ sizedState.trace rfl

/-- C4: on a display whose reported type is not `FFVA_DISPLAY_TYPE_WAYLAND`,
`renderer_init` returns false for every flags value, leaves every field of the
renderer as it was and makes no call on the connection (no registry obtained,
no listener added, no round-trip, no bind). -/
theorem C4_init_rejects_other_display (FFVA_DISPLAY_TYPE_WAYLAND : Nat)
    (rnd : FFVARendererWAYLAND) (flags : Nat) (env : InitEnv) (tr : Trace)
    (hty : rnd.base.display.type ≠ FFVA_DISPLAY_TYPE_WAYLAND) :
    renderer_init FFVA_DISPLAY_TYPE_WAYLAND rnd flags env tr =
      { ret := false, rnd := rnd, trace := tr } := by
  simp [renderer_init, hty]

theorem C4_init_rejects_other_display_witness :
    renderer_init 3 (renderer_alloc otherDisplay) 7 ⟨50, demoGlobals⟩ [] =
      { ret := false, rnd := renderer_alloc otherDisplay, trace := [] } :=
  C4_init_rejects_other_display 3 (renderer_alloc otherDisplay) 7 ⟨50, demoGlobals⟩ []
    (by decide)

/-- C5 as stated fails: on a Wayland display that advertises `wl_compositor`
but no `wl_shell`, it is not the case that `renderer_init` or the first
`renderer_set_size` fails and no drawing surface is created. -/
theorem C5_counterexample :
    (∀ a ∈ noShellGlobals, a.interface ≠ "wl_shell") ∧
    ¬ ((noShellState.ret = false ∨
        (renderer_set_size noShellState.rnd 1280 720 ⟨10, 0, 12⟩
          noShellState.trace).ret = false) ∧
       liveSurfaces (renderer_set_size noShellState.rnd 1280 720 ⟨10, 0, 12⟩
          noShellState.trace).trace = []) := by
  decide

/-- C5 amended: on a Wayland-type display `renderer_init` succeeds whatever is
advertised, and a global that is not advertised leaves its handle as it was
(null on a new renderer).  The `renderer_set_size` that follows fails whenever
`wl_compositor_create_surface` returns null, and then no drawing surface is
created; when it returns a surface, that surface is created, whether or not
`wl_shell` was bound. -/
theorem C5_missing_global (FFVA_DISPLAY_TYPE_WAYLAND : Nat) (rnd : FFVARendererWAYLAND)
    (flags : Nat) (ienv : InitEnv) (tr : Trace) (width height : Nat) (wenv : WindowEnv)
    (hty : rnd.base.display.type = FFVA_DISPLAY_TYPE_WAYLAND) :
    (renderer_init FFVA_DISPLAY_TYPE_WAYLAND rnd flags ienv tr).ret = true ∧
    ((∀ a ∈ ienv.globals, a.interface ≠ "wl_compositor") →
      (renderer_init FFVA_DISPLAY_TYPE_WAYLAND rnd flags ienv tr).rnd.compositor =
        rnd.compositor) ∧
    ((∀ a ∈ ienv.globals, a.interface ≠ "wl_shell") →
      (renderer_init FFVA_DISPLAY_TYPE_WAYLAND rnd flags ienv tr).rnd.shell = rnd.shell) ∧
    (wenv.surface = 0 →
      (renderer_set_size (renderer_init FFVA_DISPLAY_TYPE_WAYLAND rnd flags ienv tr).rnd
        width height wenv
        (renderer_init FFVA_DISPLAY_TYPE_WAYLAND rnd flags ienv tr).trace).ret = false ∧
      liveSurfaces (renderer_set_size
        (renderer_init FFVA_DISPLAY_TYPE_WAYLAND rnd flags ienv tr).rnd width height wenv
        (renderer_init FFVA_DISPLAY_TYPE_WAYLAND rnd flags ienv tr).trace).trace =
        liveSurfaces (renderer_init FFVA_DISPLAY_TYPE_WAYLAND rnd flags ienv tr).trace) ∧
    (wenv.surface ≠ 0 →
      liveSurfaces (renderer_set_size
        (renderer_init FFVA_DISPLAY_TYPE_WAYLAND rnd flags ienv tr).rnd width height wenv
        (renderer_init FFVA_DISPLAY_TYPE_WAYLAND rnd flags ienv tr).trace).trace =
        wenv.surface ::
          liveSurfaces (renderer_init FFVA_DISPLAY_TYPE_WAYLAND rnd flags ienv tr).trace) := by
  refine ⟨?_, ?_, ?_, ?_, ?_⟩
  · simp [renderer_init, hty]
  · intro hno
    have hf : ienv.globals.filter (fun a => decide (a.interface = "wl_compositor")) = [] := by
      rw [List.filter_eq_nil_iff]
      intro a ha
      simpa using hno a ha
    simp [renderer_init, hty, dispatch_globals_compositor, hf]
  · intro hno
    have hf : ienv.globals.filter (fun a => decide (a.interface = "wl_shell")) = [] := by
      rw [List.filter_eq_nil_iff]
      intro a ha
      simpa using hno a ha
    simp [renderer_init, hty, dispatch_globals_shell, hf]
  · intro hs
    simp [renderer_set_size, create_window_null _ _ _ _ _ hs, liveSurfaces_append,
      stepSurfaces]
  · intro hs
    simp [renderer_set_size, create_window_nonnull _ _ _ _ _ hs, liveSurfaces_append, hs,
      stepSurfaces]

theorem C5_missing_global_witness :
    (∀ a ∈ noCompositorGlobals, a.interface ≠ "wl_compositor") ∧
    noCompositorState.ret = true ∧
    noCompositorState.rnd.compositor = 0 ∧
    (renderer_set_size noCompositorState.rnd 1280 720 ⟨0, 0, 0⟩
      noCompositorState.trace).ret = false ∧
    liveSurfaces (renderer_set_size noCompositorState.rnd 1280 720 ⟨0, 0, 0⟩
      noCompositorState.trace).trace = liveSurfaces noCompositorState.trace :=
  ⟨by decide,
    (C5_missing_global 3 (renderer_alloc demoDisplay) 0 ⟨50, noCompositorGlobals⟩ [] 1280 720
      ⟨0, 0, 0⟩ rfl).1,
    (C5_missing_global 3 (renderer_alloc demoDisplay) 0 ⟨50, noCompositorGlobals⟩ [] 1280 720
      ⟨0, 0, 0⟩ rfl).2.1 (by decide),
    ((C5_missing_global 3 (renderer_alloc demoDisplay) 0 ⟨50, noCompositorGlobals⟩ [] 1280 720
      ⟨0, 0, 0⟩ rfl).2.2.2.1 rfl).1,
    ((C5_missing_global 3 (renderer_alloc demoDisplay) 0 ⟨50, noCompositorGlobals⟩ [] 1280 720
      ⟨0, 0, 0⟩ rfl).2.2.2.1 rfl).2⟩

/-- C6 as stated fails: after `renderer_init` and before any
`renderer_set_size`, `renderer_put_surface` does not return failure. -/
theorem C6_counterexample :
    boundState.rnd.surface = 0 ∧ boundState.rnd.window = 0 ∧
    ¬ ((renderer_put_surface boundState.rnd 7 (some ⟨0, 0, 16, 16⟩) (some ⟨0, 0, 16, 16⟩) 0
        boundState.trace).ret = false) := by
  decide

/-- C6 amended: in every renderer state, also before any `renderer_set_size`
has succeeded, and for every frame surface, source rectangle, destination
rectangle and flags, `renderer_put_surface` returns true and changes nothing in
the renderer or on the connection. -/
theorem C6_put_surface_no_effect (rnd : FFVARendererWAYLAND) (surface : Handle)
    (src_rect dst_rect : Option VARectangle) (flags : Nat) (tr : Trace) :
    renderer_put_surface rnd surface src_rect dst_rect flags tr =
      { ret := true, rnd := rnd, trace := tr } := by
  rfl

/-- C7 as stated fails: on a renderer that never acquired anything,
`renderer_finalize` makes destroy calls on null handles; and after a successful
`renderer_init` and `renderer_set_size` it leaves the backing window live and
makes no call that releases the bound shell. -/
theorem C7_counterexample :
    ¬ (∀ c ∈ (renderer_finalize (renderer_alloc demoDisplay) []).2,
        destroyTarget c ≠ some 0) ∧
    sizedState.rnd.window = 12 ∧
    liveWindows (renderer_finalize sizedState.rnd sizedState.trace).2 = [12] ∧
    sizedState.rnd.shell = 6 ∧
    WlCall.wl_shell_destroy 6 ∉ (renderer_finalize sizedState.rnd sizedState.trace).2 := by
  decide

/-- C7 amended: in every renderer state `renderer_finalize` calls, in this
order and whether or not the handle is null, `wl_shell_surface_destroy` on the
shell surface, `wl_surface_destroy` on the drawing surface,
`wl_compositor_destroy` on the compositor and `wl_registry_destroy` on the
registry; it does not destroy the backing window, and it changes no field of
the renderer. -/
theorem C7_finalize_calls (rnd : FFVARendererWAYLAND) (tr : Trace) :
    (renderer_finalize rnd tr).1 = rnd ∧
    ∃ evs, (renderer_finalize rnd tr).2 = tr ++ evs ∧
      List.Sublist [WlCall.wl_shell_surface_destroy rnd.shell_surface,
        WlCall.wl_surface_destroy rnd.surface,
        WlCall.wl_compositor_destroy rnd.compositor,
        WlCall.wl_registry_destroy rnd.registry] evs ∧
      (∀ h, WlCall.wl_egl_window_destroy h ∉ evs) ∧
      liveWindows (renderer_finalize rnd tr).2 = liveWindows tr := by
  refine ⟨rfl, _, rfl, List.Sublist.refl _, ?_, ?_⟩
  · intro h
    simp
  · simp [renderer_finalize, liveWindows, List.foldl_append, stepWindows]

/-- C8 as stated fails: when `wl_compositor` is advertised twice, the handle
held after discovery is not the one bound from the first advertisement, and
more than one bind of the compositor interface is made. -/
theorem C8_counterexample :
    ¬ ((dispatch_globals 50 twiceGlobals (renderer_alloc demoDisplay) []).1.compositor = 5) ∧
    (dispatch_globals 50 twiceGlobals (renderer_alloc demoDisplay) []).1.compositor = 7 ∧
    ¬ (bindCount WlInterface.wl_compositor_interface
        (dispatch_globals 50 twiceGlobals (renderer_alloc demoDisplay) []).2 = 1) := by
  decide

/-- C8 amended: for every sequence of advertisements delivered to
`registry_handle_global`, the compositor handle held after discovery is the one
bound from the last advertisement whose interface is "wl_compositor" and the
shell handle the one bound from the last advertisement whose interface is
"wl_shell" (each unchanged when there is none); every advertisement of either
interface causes one bind, so the number of binds of an interface is the number
of its advertisements. -/
theorem C8_last_advertisement_wins (registry : Handle) (ads : List Advert)
    (rnd : FFVARendererWAYLAND) (tr : Trace) :
    (dispatch_globals registry ads rnd tr).1.compositor =
      (((ads.filter (fun a => decide (a.interface = "wl_compositor"))).getLast?).map
        Advert.bound).getD rnd.compositor ∧
    (dispatch_globals registry ads rnd tr).1.shell =
      (((ads.filter (fun a => decide (a.interface = "wl_shell"))).getLast?).map
        Advert.bound).getD rnd.shell ∧
    ∃ evs, (dispatch_globals registry ads rnd tr).2 = tr ++ evs ∧
      bindCount WlInterface.wl_compositor_interface evs =
        ads.countP (fun a => decide (a.interface = "wl_compositor")) ∧
      bindCount WlInterface.wl_shell_interface evs =
        ads.countP (fun a => decide (a.interface = "wl_shell")) := by
  obtain ⟨evs, he, _, hc, hs⟩ := dispatch_globals_trace registry ads rnd tr
  exact ⟨dispatch_globals_compositor registry ads rnd tr,
    dispatch_globals_shell registry ads rnd tr, evs, he, hc, hs⟩

/-- C10: an advertisement whose interface name is neither "wl_compositor" nor
"wl_shell" leaves the renderer unchanged and causes no call on the connection;
and discovery over any advertisement sequence ends in the same renderer state
and trace as discovery over the sequence with the unmatched advertisements
removed. -/
theorem C10_unmatched_ignored (rnd : FFVARendererWAYLAND) (registry : Handle) (id : Nat)
    (interface : String) (version : Nat) (bound : Handle) (tr : Trace)
    (ads : List Advert)
    (hc : interface ≠ "wl_compositor") (hs : interface ≠ "wl_shell") :
    registry_handle_global rnd registry id interface version bound tr = (rnd, tr) ∧
    dispatch_globals registry ads rnd tr =
      dispatch_globals registry (ads.filter isRecognised) rnd tr := by
  constructor
  · simp [registry_handle_global, hc, hs]
  · induction ads generalizing rnd tr with
    | nil => rfl
    | cons a rest ih =>
      by_cases h1 : a.interface = "wl_compositor"
      · have hr : isRecognised a = true := by simp [isRecognised, h1]
        rw [List.filter_cons_of_pos hr]
        simp only [dispatch_globals]
        exact ih _ _
      · by_cases h2 : a.interface = "wl_shell"
        · have hr : isRecognised a = true := by simp [isRecognised, h2]
          rw [List.filter_cons_of_pos hr]
          simp only [dispatch_globals]
          exact ih _ _
        · have hr : ¬ (isRecognised a = true) := by simp [isRecognised, h1, h2]
          rw [List.filter_cons_of_neg hr]
          simp only [dispatch_globals]
          have hid : registry_handle_global rnd registry a.id a.interface a.version
              a.bound tr = (rnd, tr) := by
            simp [registry_handle_global, h1, h2]
          rw [hid]
          exact ih _ _

theorem C10_unmatched_ignored_witness :
    registry_handle_global boundState.rnd 50 2 "wl_seat" 4 9 boundState.trace =
      (boundState.rnd, boundState.trace) ∧
    dispatch_globals 50 demoGlobals (renderer_alloc demoDisplay) [] =
      dispatch_globals 50 (demoGlobals.filter isRecognised) (renderer_alloc demoDisplay) [] :=
  ⟨(C10_unmatched_ignored boundState.rnd 50 2 "wl_seat" 4 9 boundState.trace demoGlobals
      (by decide) (by decide)).1,
    (C10_unmatched_ignored (renderer_alloc demoDisplay) 50 2 "wl_seat" 4 9 [] demoGlobals
      (by decide) (by decide)).2⟩

end FFVA
